import Mathlib

/-!
Shallow embedding of the e-commerce backend (flat-file store, session cart,
product catalog query, order checkout and order management) and proofs of the
specification claims about it.

Conventions of the embedding:
* JS numbers carrying money values are modelled as `ℚ`; quantities and stock
  are `ℤ` (they originate from `parseInt`); timestamps are `ℕ` (epoch millis —
  ISO-8601 strings produced by `getTimestamp` order-embed into them).
* `Math.round(x * 100) / 100` is `round2`; JS `Math.round` rounds half toward
  +∞, i.e. `⌊x + 1/2⌋`.
* The environment (current time, generated ids, success of `fs` writes) is
  passed in as explicit parameters; `writeData`'s boolean result is a
  parameter because the real write can fail, and the persisted file after a
  handler is `if writeOk then newData else oldData`.
* Express request handlers become total functions from (session state, files,
  request data, environment) to a result record carrying the HTTP status, the
  response payload and the post-state of the session and of each file.
-/

/-- JS `Math.round`: round half toward positive infinity. -/
def jsRound (q : ℚ) : ℤ := (q + 1/2).floor

/-- `Math.round(x * 100) / 100` — round to 2 decimal places. -/
def round2 (q : ℚ) : ℚ := (jsRound (q * 100) : ℚ) / 100

/-- JS `Math.ceil`. -/
def jsCeil (q : ℚ) : ℤ := -(Rat.floor (-q))

/-- Substring occurrence test on character lists. -/
def includesAux (pat : List Char) : List Char → Bool
  | [] => pat.isEmpty
  | c :: rest => pat.isPrefixOf (c :: rest) || includesAux pat rest

/-- JS `String.prototype.includes` (substring test). -/
def jsIncludes (s sub : String) : Bool := includesAux sub.toList s.toList

/-- A product record as stored in `products.json`. -/
structure Product where
  id : String
  name : String
  description : String
  price : ℚ
  originalPrice : ℚ
  category : String
  subcategory : String
  brand : String
  images : List String
  stock : ℤ
  rating : ℚ
  reviews : ℕ
  featured : Bool
  tags : List String
  specifications : List (String × String)
  createdAt : ℕ
  updatedAt : Option ℕ
  deriving Repr, DecidableEq

/-- A session cart line: `{productId, quantity, addedAt}`. -/
structure CartItem where
  productId : String
  quantity : ℤ
  addedAt : ℕ
  deriving Repr, DecidableEq

/-- A denormalized order line snapshot. -/
structure OrderItem where
  productId : String
  name : String
  price : ℚ
  quantity : ℤ
  image : String
  deriving Repr, DecidableEq

/-- A shipping address (`street/city/state/zipCode` are the validated fields). -/
structure Address where
  street : String
  city : String
  state : String
  zipCode : String
  deriving Repr, DecidableEq

/-- One `statusHistory` entry. -/
structure StatusEntry where
  status : String
  timestamp : ℕ
  note : String
  deriving Repr, DecidableEq

/-- An order record as stored in `orders.json`. -/
structure Order where
  id : String
  orderNumber : String
  userId : String
  customerName : String
  customerEmail : String
  items : List OrderItem
  shippingAddress : Address
  paymentMethod : String
  subtotal : ℚ
  shipping : ℚ
  tax : ℚ
  total : ℚ
  status : String
  statusHistory : List StatusEntry
  createdAt : ℕ
  updatedAt : ℕ
  deriving Repr, DecidableEq

/-- The `req.session.user` object. -/
structure SessionUser where
  id : String
  name : String
  email : String
  role : String
  deriving Repr, DecidableEq

/-- `Rat.floor` agrees with the mathematical floor `⌊·⌋`. -/
theorem ratFloor_eq_intFloor (q : ℚ) : q.floor = ⌊q⌋ :=
  (Rat.floor_def' q).trans Rat.floor_def.symm

/-- `jsRound` is the mathematical `⌊q + 1/2⌋`. -/
theorem jsRound_eq (q : ℚ) : jsRound q = ⌊q + 1/2⌋ := ratFloor_eq_intFloor _

/-- `jsCeil` is the mathematical ceiling. -/
theorem jsCeil_eq (q : ℚ) : jsCeil q = ⌈q⌉ := by
  rw [jsCeil, ratFloor_eq_intFloor, Int.floor_neg, neg_neg]

/-! ## Checkout (`POST /api/orders`)

The handler: validate cart non-empty, validate shipping address fields,
walk the cart resolving each line against the product collection (mutating
the resolved product's stock in memory), write `products.json`, compute
totals, append the new order, write `orders.json` (ignoring its boolean
result), clear the session cart, respond 201. -/

/-- JS `product.stock -= cartItem.quantity` through `Array.prototype.find`:
the first product in the array whose `id` matches has its stock reduced. -/
def decrementStock : List Product → String → ℤ → List Product
  | [], _, _ => []
  | p :: ps, pid, q =>
    if p.id == pid then { p with stock := p.stock - q } :: ps
    else p :: decrementStock ps pid q

/-- The `for (const cartItem of req.session.cart)` loop: resolve each line,
fail with the handler's error code on a missing product or insufficient
stock, otherwise append the order item, accumulate the subtotal and
decrement the resolved product's stock in memory. -/
def checkoutLoop : List Product → List CartItem → List OrderItem → ℚ →
    Except String (List Product × List OrderItem × ℚ)
  | products, [], items, sub => .ok (products, items, sub)
  | products, item :: rest, items, sub =>
    match products.find? (fun p => p.id == item.productId) with
    | none => .error "Product not found"
    | some p =>
      if p.stock < item.quantity then .error "Insufficient stock"
      else
        checkoutLoop (decrementStock products item.productId item.quantity) rest
          (items ++ [{ productId := p.id, name := p.name, price := p.price,
                       quantity := item.quantity, image := p.images.headD "" }])
          (sub + p.price * item.quantity)

/-- The address check: `!shippingAddress || !shippingAddress.street || ...`
(JS falsiness of a missing object or an empty-string field). -/
def validAddress : Option Address → Bool
  | none => false
  | some a =>
    !(a.street == "" || a.city == "" || a.state == "" || a.zipCode == "")

/-- Observable outcome of the checkout handler: HTTP status, the `error`
code of the JSON body on failure, the persisted contents of the two files,
the session cart after the request, whether `writeData(PRODUCTS_FILE, ...)`
was reached, and the order record created on success. -/
structure CheckoutResult where
  status : ℕ
  error : Option String
  productsFile : List Product
  ordersFile : List Order
  cart : List CartItem
  productsWriteAttempted : Bool
  createdOrder : Option Order
  deriving Repr, DecidableEq

/-- The "Calculate totals" and "Create order" blocks of the handler:
`shipping = subtotal > 100 ? 0 : 9.99`, `tax = subtotal * 0.08`,
`total = subtotal + shipping + tax`, each rounded independently with
`Math.round(x * 100) / 100` before storage. -/
def mkOrder (user : SessionUser) (a : Address) (paymentMethod : String)
    (orderItems : List OrderItem) (subtotal : ℚ)
    (orderId orderNumber : String) (now : ℕ) : Order :=
  let shipping : ℚ := if subtotal > 100 then 0 else 9.99
  let tax : ℚ := subtotal * 0.08
  let total : ℚ := subtotal + shipping + tax
  { id := orderId, orderNumber := orderNumber, userId := user.id,
    customerName := user.name, customerEmail := user.email,
    items := orderItems, shippingAddress := a, paymentMethod := paymentMethod,
    subtotal := round2 subtotal, shipping := round2 shipping,
    tax := round2 tax, total := round2 total,
    status := "pending",
    statusHistory := [⟨"pending", now, "Order placed"⟩],
    createdAt := now, updatedAt := now }

/-- The `POST /api/orders` handler.  `writeProductsOk` / `writeOrdersOk` are
the boolean results the two `writeData` calls would return (the handler
ignores both); a failed write leaves the corresponding file unchanged.
`orderId`, `orderNumber` and `now` stand for `generateId()`, the
`ORD-...` token derived from `Date.now()`, and `getTimestamp()`. -/
def checkout (user : SessionUser) (cart : List CartItem)
    (productsFile : List Product) (ordersFile : List Order)
    (shippingAddress : Option Address) (paymentMethod : String)
    (writeProductsOk writeOrdersOk : Bool)
    (orderId orderNumber : String) (now : ℕ) : CheckoutResult :=
  if cart.isEmpty then
    ⟨400, some "Empty cart", productsFile, ordersFile, cart, false, none⟩
  else if !(validAddress shippingAddress) then
    ⟨400, some "Invalid address", productsFile, ordersFile, cart, false, none⟩
  else
    match checkoutLoop productsFile cart [] 0 with
    | .error e => ⟨400, some e, productsFile, ordersFile, cart, false, none⟩
    | .ok (newProducts, orderItems, subtotal) =>
      let order := mkOrder user (shippingAddress.getD ⟨"", "", "", ""⟩)
        paymentMethod orderItems subtotal orderId orderNumber now
      ⟨201, none, if writeProductsOk then newProducts else productsFile,
        if writeOrdersOk then ordersFile ++ [order] else ordersFile,
        [], true, some order⟩

/-- A cart line fails the checkout validation against a product collection:
its product is absent, or its stock is below the requested quantity. -/
def lineFails (products : List Product) (item : CartItem) : Bool :=
  match products.find? (fun p => p.id == item.productId) with
  | none => true
  | some p => p.stock < item.quantity

/-- `ps'` resolves exactly the same product ids as `ps`, with stock at most
that in `ps` (the in-memory state during the checkout loop, versus the
collection as read from disk). -/
def stockDominated (ps ps' : List Product) : Prop :=
  ∀ pid : String,
    match ps.find? (fun p => p.id == pid), ps'.find? (fun p => p.id == pid) with
    | none, none => True
    | some p, some p' => p'.stock ≤ p.stock
    | _, _ => False

theorem stockDominated_refl (ps : List Product) : stockDominated ps ps := by
  intro pid
  cases h : ps.find? (fun p => p.id == pid) <;> simp [h]

theorem find?_decrementStock (ps : List Product) (pid : String) (q : ℤ)
    (pid' : String) :
    (decrementStock ps pid q).find? (fun p => p.id == pid') =
      if pid' = pid then
        (ps.find? (fun p => p.id == pid)).map
          (fun p => { p with stock := p.stock - q })
      else ps.find? (fun p => p.id == pid') := by
  induction ps with
  | nil => simp [decrementStock]
  | cons p ps ih =>
    by_cases hp : p.id = pid
    · have hb : (p.id == pid) = true := by simp [hp]
      simp only [decrementStock, hb, if_true]
      by_cases hp' : pid' = pid
      · subst hp'
        simp [List.find?_cons, hp]
      · have h1 : (p.id == pid') = false := by simp [hp, Ne.symm hp']
        simp [List.find?_cons, h1, hp']
    · have hb : (p.id == pid) = false := by simp [hp]
      simp only [decrementStock, hb, Bool.false_eq_true, if_false]
      by_cases hh : p.id = pid'
      · have hp' : ¬ pid' = pid := fun h => hp (hh.trans h)
        have h1 : (p.id == pid') = true := by simp [hh]
        simp [List.find?_cons, h1, hp']
      · have h1 : (p.id == pid') = false := by simp [hh]
        simp only [List.find?_cons, h1, hb, ih]

theorem stockDominated_decrement {ps ps' : List Product}
    (h : stockDominated ps ps') {q : ℤ} (hq : 0 ≤ q) (pid : String) :
    stockDominated ps (decrementStock ps' pid q) := by
  intro pid'
  have h' := h pid'
  rw [find?_decrementStock]
  by_cases hp : pid' = pid
  · subst hp
    revert h'
    cases hps : ps.find? (fun p => p.id == pid') <;>
      cases hps' : ps'.find? (fun p => p.id == pid') <;>
        simp_all
    omega
  · rw [if_neg hp]
    exact h'

theorem checkoutLoop_error_of_fails :
    ∀ (cart : List CartItem) (ps ps' : List Product) (acc : List OrderItem)
      (sub : ℚ), stockDominated ps ps' →
    (∀ i ∈ cart, 0 ≤ i.quantity) →
    (∃ i ∈ cart, lineFails ps i = true) →
    ∃ e, checkoutLoop ps' cart acc sub = .error e := by
  intro cart
  induction cart with
  | nil =>
    rintro ps ps' acc sub _ _ ⟨i, hi, _⟩
    exact absurd hi (List.not_mem_nil i)
  | cons item rest ih =>
    intro ps ps' acc sub hdom hq hfail
    cases hfind : ps'.find? (fun p => p.id == item.productId) with
    | none =>
      simp only [checkoutLoop, hfind]
      exact ⟨_, rfl⟩
    | some p =>
      simp only [checkoutLoop, hfind]
      by_cases hst : p.stock < item.quantity
      · rw [if_pos hst]
        exact ⟨_, rfl⟩
      · rw [if_neg hst]
        apply ih ps _ _ _
          (stockDominated_decrement hdom (hq item (List.mem_cons_self item rest)) _)
          (fun i hi => hq i (List.mem_cons_of_mem _ hi))
        obtain ⟨i, hi, hfa⟩ := hfail
        rcases List.mem_cons.mp hi with rfl | hi'
        · exfalso
          have hd := hdom i.productId
          rw [hfind] at hd
          rw [lineFails] at hfa
          cases hps : ps.find? (fun p => p.id == i.productId) with
          | none => rw [hps] at hd; exact hd
          | some p0 =>
            rw [hps] at hd
            rw [hps] at hfa
            simp only [decide_eq_true_eq] at hfa
            omega
        · exact ⟨i, hi', hfa⟩

/-- Sample records used by concrete witnesses. -/
def sampleProduct (id : String) (price : ℚ) (stock : ℤ) : Product :=
  ⟨id, "Product " ++ id, "A product", price, price, "general", "", "",
    [], stock, 0, 0, false, [], [], 0, none⟩

def sampleUser : SessionUser := ⟨"U1", "User One", "u1@example.com", "customer"⟩

def sampleAddress : Address := ⟨"1 Main St", "Springfield", "ST", "12345"⟩

/-- **C1** Checkout is all-or-nothing with respect to validation failures:
whenever some cart line fails validation against the product collection as
read from disk (its product is absent, or its stock is below the requested
quantity), the handler answers 400, `products.json` and `orders.json` are
left exactly as they were, the `writeData(PRODUCTS_FILE, ...)` call is never
reached, no order is created, and the session cart is untouched — even
though earlier lines may already have been decremented in memory.  Cart
quantities are non-negative, as the data model requires. -/
theorem checkout_validation_all_or_nothing
    (user : SessionUser) (cart : List CartItem) (productsFile : List Product)
    (ordersFile : List Order) (shippingAddress : Option Address)
    (paymentMethod : String) (writeProductsOk writeOrdersOk : Bool)
    (orderId orderNumber : String) (now : ℕ)
    (hq : ∀ i ∈ cart, 0 ≤ i.quantity)
    (hfail : ∃ i ∈ cart, lineFails productsFile i = true) :
    ∃ e, checkout user cart productsFile ordersFile shippingAddress
        paymentMethod writeProductsOk writeOrdersOk orderId orderNumber now =
      ⟨400, some e, productsFile, ordersFile, cart, false, none⟩ := by
  have hne : cart.isEmpty = false := by
    obtain ⟨i, hi, _⟩ := hfail
    cases cart
    · exact absurd hi (List.not_mem_nil i)
    · rfl
  rw [checkout]
  simp only [hne, Bool.false_eq_true, if_false]
  by_cases haddr : validAddress shippingAddress = true
  · have hb : (!validAddress shippingAddress) = false := by simp [haddr]
    simp only [hb, Bool.false_eq_true, if_false]
    obtain ⟨e, he⟩ := checkoutLoop_error_of_fails cart productsFile productsFile
      [] 0 (stockDominated_refl _) hq hfail
    rw [he]
    exact ⟨e, rfl⟩
  · have hb : (!validAddress shippingAddress) = true := by simp [haddr]
    simp only [hb, if_true]
    exact ⟨"Invalid address", rfl⟩

/-- Concrete instance of C1: a cart asking for 5 units of a product with
stock 3 is rejected with 400 and nothing is persisted. -/
theorem checkout_validation_all_or_nothing_witness :
    (∀ i ∈ [(⟨"P1", 5, 0⟩ : CartItem)], 0 ≤ i.quantity) ∧
    lineFails [sampleProduct "P1" 50 3] ⟨"P1", 5, 0⟩ = true ∧
    ∃ e, checkout sampleUser [⟨"P1", 5, 0⟩] [sampleProduct "P1" 50 3] []
        (some sampleAddress) "card" true true "oid" "ORD-1" 7 =
      ⟨400, some e, [sampleProduct "P1" 50 3], [], [⟨"P1", 5, 0⟩], false, none⟩ :=
  ⟨by decide, by decide,
    checkout_validation_all_or_nothing sampleUser _ _ _ _ _ _ _ _ _ _
      (by decide) ⟨⟨"P1", 5, 0⟩, by decide, by decide⟩⟩

/-- Restatement of `round2` through the mathematical floor, for `norm_num`. -/
theorem round2_eq (q : ℚ) : round2 q = (⌊q * 100 + 1/2⌋ : ℚ) / 100 := by
  rw [round2, jsRound_eq]

/-- Characterization of a successful checkout: it happens exactly on the
success branch, the created order is `mkOrder` of the loop's output, and the
persisted files are governed by the two write results. -/
theorem checkout_success_char (user : SessionUser) (cart : List CartItem)
    (productsFile : List Product) (ordersFile : List Order)
    (shippingAddress : Option Address) (paymentMethod : String)
    (writeProductsOk writeOrdersOk : Bool) (orderId orderNumber : String)
    (now : ℕ)
    (h : (checkout user cart productsFile ordersFile shippingAddress
      paymentMethod writeProductsOk writeOrdersOk orderId
      orderNumber now).createdOrder.isSome = true) :
    ∃ newProducts orderItems subtotal,
      checkoutLoop productsFile cart [] 0 =
        .ok (newProducts, orderItems, subtotal) ∧
      checkout user cart productsFile ordersFile shippingAddress paymentMethod
          writeProductsOk writeOrdersOk orderId orderNumber now =
        ⟨201, none, if writeProductsOk then newProducts else productsFile,
          if writeOrdersOk then
            ordersFile ++ [mkOrder user (shippingAddress.getD ⟨"", "", "", ""⟩)
              paymentMethod orderItems subtotal orderId orderNumber now]
          else ordersFile,
          [], true,
          some (mkOrder user (shippingAddress.getD ⟨"", "", "", ""⟩)
            paymentMethod orderItems subtotal orderId orderNumber now)⟩ := by
  rw [checkout] at h ⊢
  by_cases h1 : cart.isEmpty = true
  · simp [h1] at h
  · rw [Bool.not_eq_true] at h1
    simp only [h1, Bool.false_eq_true, if_false] at h ⊢
    by_cases h2 : (!validAddress shippingAddress) = true
    · simp [h2] at h
    · rw [Bool.not_eq_true] at h2
      simp only [h2, Bool.false_eq_true, if_false] at h ⊢
      cases hloop : checkoutLoop productsFile cart [] 0 with
      | error e => simp [hloop] at h
      | ok tup =>
        obtain ⟨np, items, sub⟩ := tup
        exact ⟨np, items, sub, rfl, rfl⟩

theorem mkOrder_subtotal (u : SessionUser) (a : Address) (pm : String)
    (its : List OrderItem) (sub : ℚ) (oid onum : String) (now : ℕ) :
    (mkOrder u a pm its sub oid onum now).subtotal = round2 sub := rfl

theorem mkOrder_shipping (u : SessionUser) (a : Address) (pm : String)
    (its : List OrderItem) (sub : ℚ) (oid onum : String) (now : ℕ) :
    (mkOrder u a pm its sub oid onum now).shipping =
      round2 (if sub > 100 then 0 else 9.99) := rfl

theorem mkOrder_tax (u : SessionUser) (a : Address) (pm : String)
    (its : List OrderItem) (sub : ℚ) (oid onum : String) (now : ℕ) :
    (mkOrder u a pm its sub oid onum now).tax = round2 (sub * 0.08) := rfl

theorem mkOrder_total (u : SessionUser) (a : Address) (pm : String)
    (its : List OrderItem) (sub : ℚ) (oid onum : String) (now : ℕ) :
    (mkOrder u a pm its sub oid onum now).total =
      round2 (sub + (if sub > 100 then 0 else 9.99) + sub * 0.08) := rfl

theorem round2_zero : round2 0 = 0 := by rw [round2_eq]; norm_num

theorem round2_nine_ninetynine : round2 9.99 = 9.99 := by
  rw [round2_eq]; norm_num

/-- **C2 (counterexample)** In the concrete valid checkout where persisting
the order fails (`writeOrdersOk = false`), the handler still answers 201
with the session cart cleared, and `orders.json` is left without the order:
the write's boolean result is ignored, contradicting the claim that a failed
write never yields a success response with a cleared cart. -/
theorem checkout_write_failure_counterexample :
    (checkout sampleUser [⟨"P1", 2, 0⟩] [sampleProduct "P1" 50 5] []
      (some sampleAddress) "card" true false "oid" "ORD-1" 7).status = 201 ∧
    (checkout sampleUser [⟨"P1", 2, 0⟩] [sampleProduct "P1" 50 5] []
      (some sampleAddress) "card" true false "oid" "ORD-1" 7).cart = [] ∧
    (checkout sampleUser [⟨"P1", 2, 0⟩] [sampleProduct "P1" 50 5] []
      (some sampleAddress) "card" true false "oid" "ORD-1" 7).ordersFile = [] :=
  ⟨rfl, rfl, rfl⟩

/-- **C2 (amended)** On the success path the cart is cleared and a 201
success response is produced only after the `writeData` call for the order,
but regardless of that call's boolean result: a failed order write leaves
`orders.json` unchanged while the response still reports success with the
cart cleared. -/
theorem checkout_cart_clear_and_response (user : SessionUser)
    (cart : List CartItem) (productsFile : List Product)
    (ordersFile : List Order) (shippingAddress : Option Address)
    (paymentMethod : String) (writeProductsOk writeOrdersOk : Bool)
    (orderId orderNumber : String) (now : ℕ)
    (h : (checkout user cart productsFile ordersFile shippingAddress
      paymentMethod writeProductsOk writeOrdersOk orderId
      orderNumber now).createdOrder.isSome = true) :
    (checkout user cart productsFile ordersFile shippingAddress paymentMethod
      writeProductsOk writeOrdersOk orderId orderNumber now).status = 201 ∧
    (checkout user cart productsFile ordersFile shippingAddress paymentMethod
      writeProductsOk writeOrdersOk orderId orderNumber now).cart = [] ∧
    (writeOrdersOk = false →
      (checkout user cart productsFile ordersFile shippingAddress paymentMethod
        writeProductsOk writeOrdersOk orderId orderNumber now).ordersFile =
        ordersFile) := by
  obtain ⟨np, items, sub, hloop, heq⟩ := checkout_success_char user cart
    productsFile ordersFile shippingAddress paymentMethod writeProductsOk
    writeOrdersOk orderId orderNumber now h
  rw [heq]
  exact ⟨rfl, rfl, fun hwo => by simp [hwo]⟩

/-- Concrete instance of C2 (amended): the failed order write leaves
`orders.json` empty yet the handler answers 201 with an empty cart. -/
theorem checkout_cart_clear_and_response_witness :
    (checkout sampleUser [⟨"P1", 2, 0⟩] [sampleProduct "P1" 50 5] []
      (some sampleAddress) "card" true false "oid" "ORD-1" 7).createdOrder.isSome
        = true ∧
    ((checkout sampleUser [⟨"P1", 2, 0⟩] [sampleProduct "P1" 50 5] []
      (some sampleAddress) "card" true false "oid" "ORD-1" 7).status = 201 ∧
    (checkout sampleUser [⟨"P1", 2, 0⟩] [sampleProduct "P1" 50 5] []
      (some sampleAddress) "card" true false "oid" "ORD-1" 7).cart = [] ∧
    (false = false →
      (checkout sampleUser [⟨"P1", 2, 0⟩] [sampleProduct "P1" 50 5] []
        (some sampleAddress) "card" true false "oid" "ORD-1" 7).ordersFile =
        [])) :=
  ⟨rfl, checkout_cart_clear_and_response sampleUser _ _ _ _ _ _ _ _ _ _ rfl⟩

/-- **C3** For every valid (successful) checkout, the stored shipping charge
is 0 exactly when the computed subtotal is strictly greater than 100, and is
the flat rate 9.99 otherwise. -/
theorem checkout_shipping_free_iff (user : SessionUser) (cart : List CartItem)
    (productsFile : List Product) (ordersFile : List Order)
    (shippingAddress : Option Address) (paymentMethod : String)
    (writeProductsOk writeOrdersOk : Bool) (orderId orderNumber : String)
    (now : ℕ)
    (h : (checkout user cart productsFile ordersFile shippingAddress
      paymentMethod writeProductsOk writeOrdersOk orderId
      orderNumber now).createdOrder.isSome = true) :
    ∃ o newProducts orderItems subtotal,
      (checkout user cart productsFile ordersFile shippingAddress paymentMethod
        writeProductsOk writeOrdersOk orderId orderNumber now).createdOrder =
        some o ∧
      checkoutLoop productsFile cart [] 0 =
        .ok (newProducts, orderItems, subtotal) ∧
      (o.shipping = 0 ↔ subtotal > 100) ∧
      (¬ subtotal > 100 → o.shipping = 9.99) := by
  obtain ⟨np, items, sub, hloop, heq⟩ := checkout_success_char user cart
    productsFile ordersFile shippingAddress paymentMethod writeProductsOk
    writeOrdersOk orderId orderNumber now h
  refine ⟨_, np, items, sub, by rw [heq], hloop, ?_, ?_⟩
  · rw [mkOrder_shipping]
    by_cases hgt : sub > 100
    · rw [if_pos hgt, round2_zero]
      simp [hgt]
    · rw [if_neg hgt, round2_nine_ninetynine]
      constructor
      · intro h99
        exact absurd h99 (by norm_num)
      · intro hgt'
        exact absurd hgt' hgt
  · intro hgt
    rw [mkOrder_shipping, if_neg hgt, round2_nine_ninetynine]

/-- Concrete instance of C3: subtotal 100 is not `> 100`, so shipping is
9.99. -/
theorem checkout_shipping_free_iff_witness :
    (checkout sampleUser [⟨"P1", 2, 0⟩] [sampleProduct "P1" 50 5] []
      (some sampleAddress) "card" true true "oid" "ORD-1" 7).createdOrder.isSome
        = true ∧
    (∃ o newProducts orderItems subtotal,
      (checkout sampleUser [⟨"P1", 2, 0⟩] [sampleProduct "P1" 50 5] []
        (some sampleAddress) "card" true true "oid" "ORD-1" 7).createdOrder =
        some o ∧
      checkoutLoop [sampleProduct "P1" 50 5] [⟨"P1", 2, 0⟩] [] 0 =
        .ok (newProducts, orderItems, subtotal) ∧
      (o.shipping = 0 ↔ subtotal > 100) ∧
      (¬ subtotal > 100 → o.shipping = 9.99)) :=
  ⟨rfl, checkout_shipping_free_iff sampleUser _ _ _ _ _ _ _ _ _ _ rfl⟩

/-- **C5 (counterexample)** For the valid checkout of one unit of a product
priced 0.067, the stored total is 10.06, while the sum of the independently
rounded subtotal, shipping and tax is 10.07: the claim's equation fails. -/
theorem checkout_total_rounding_counterexample :
    (checkout sampleUser [⟨"P1", 1, 0⟩] [sampleProduct "P1" 0.067 5] []
      (some sampleAddress) "card" true true "oid" "ORD-1" 7).createdOrder.map
        Order.total = some 10.06 ∧
    checkoutLoop [sampleProduct "P1" 0.067 5] [⟨"P1", 1, 0⟩] [] 0 =
      .ok ([{ sampleProduct "P1" 0.067 5 with stock := 4 }],
        [⟨"P1", "Product P1", 0.067, 1, ""⟩], 0 + 0.067 * ((1 : ℤ) : ℚ)) ∧
    round2 (0 + 0.067 * ((1 : ℤ) : ℚ)) +
      round2 (if (0 + 0.067 * ((1 : ℤ) : ℚ) : ℚ) > 100 then 0 else 9.99) +
      round2 ((0 + 0.067 * ((1 : ℤ) : ℚ)) * 0.08) = 10.07 ∧
    (10.06 : ℚ) ≠ 10.07 := by
  have hns : ¬ ((0 + 0.067 * ((1 : ℤ) : ℚ) : ℚ) > 100) := by norm_num
  refine ⟨?_, rfl, ?_, by norm_num⟩
  · have ho : (checkout sampleUser [⟨"P1", 1, 0⟩] [sampleProduct "P1" 0.067 5]
        [] (some sampleAddress) "card" true true "oid"
        "ORD-1" 7).createdOrder =
        some (mkOrder sampleUser sampleAddress "card"
          [⟨"P1", "Product P1", 0.067, 1, ""⟩] (0 + 0.067 * ((1 : ℤ) : ℚ))
          "oid" "ORD-1" 7) := rfl
    rw [ho, Option.map_some', mkOrder_total, if_neg hns, round2_eq]
    norm_num
  · rw [if_neg hns, round2_eq, round2_eq, round2_eq]
    norm_num

/-- **C5 (amended)** For every valid checkout, the stored total is the
once-rounded sum `round2(subtotal + shipping + tax)` of the unrounded
computed components (not the sum of the independently rounded ones). -/
theorem checkout_total_once_rounded (user : SessionUser) (cart : List CartItem)
    (productsFile : List Product) (ordersFile : List Order)
    (shippingAddress : Option Address) (paymentMethod : String)
    (writeProductsOk writeOrdersOk : Bool) (orderId orderNumber : String)
    (now : ℕ)
    (h : (checkout user cart productsFile ordersFile shippingAddress
      paymentMethod writeProductsOk writeOrdersOk orderId
      orderNumber now).createdOrder.isSome = true) :
    ∃ o newProducts orderItems subtotal,
      (checkout user cart productsFile ordersFile shippingAddress paymentMethod
        writeProductsOk writeOrdersOk orderId orderNumber now).createdOrder =
        some o ∧
      checkoutLoop productsFile cart [] 0 =
        .ok (newProducts, orderItems, subtotal) ∧
      o.total = round2 (subtotal + (if subtotal > 100 then 0 else 9.99) +
        subtotal * 0.08) := by
  obtain ⟨np, items, sub, hloop, heq⟩ := checkout_success_char user cart
    productsFile ordersFile shippingAddress paymentMethod writeProductsOk
    writeOrdersOk orderId orderNumber now h
  exact ⟨_, np, items, sub, by rw [heq], hloop, mkOrder_total _ _ _ _ _ _ _ _⟩

/-- Concrete instance of C5 (amended). -/
theorem checkout_total_once_rounded_witness :
    (checkout sampleUser [⟨"P1", 1, 0⟩] [sampleProduct "P1" 0.067 5] []
      (some sampleAddress) "card" true true "oid" "ORD-1" 7).createdOrder.isSome
        = true ∧
    (∃ o newProducts orderItems subtotal,
      (checkout sampleUser [⟨"P1", 1, 0⟩] [sampleProduct "P1" 0.067 5] []
        (some sampleAddress) "card" true true "oid" "ORD-1" 7).createdOrder =
        some o ∧
      checkoutLoop [sampleProduct "P1" 0.067 5] [⟨"P1", 1, 0⟩] [] 0 =
        .ok (newProducts, orderItems, subtotal) ∧
      o.total = round2 (subtotal + (if subtotal > 100 then 0 else 9.99) +
        subtotal * 0.08)) :=
  ⟨rfl, checkout_total_once_rounded sampleUser _ _ _ _ _ _ _ _ _ _ rfl⟩

/-- **C4 (counterexample)** In the spec's example scenario
(cart `[{P1, qty 2}]`, P1 priced 50 with stock 5) the subtotal is exactly
100, which is not `> 100`, so the stored shipping is 9.99 — not 0 — and the
stored total is 117.99 — not 108.00. -/
theorem checkout_example_scenario_counterexample :
    (checkout sampleUser [⟨"P1", 2, 0⟩] [sampleProduct "P1" 50 5] []
      (some sampleAddress) "card" true true "oid" "ORD-1" 7).createdOrder.map
        Order.shipping = some 9.99 ∧
    (checkout sampleUser [⟨"P1", 2, 0⟩] [sampleProduct "P1" 50 5] []
      (some sampleAddress) "card" true true "oid" "ORD-1" 7).createdOrder.map
        Order.total = some 117.99 ∧
    (9.99 : ℚ) ≠ 0 ∧ (117.99 : ℚ) ≠ 108 := by
  have ho : (checkout sampleUser [⟨"P1", 2, 0⟩] [sampleProduct "P1" 50 5] []
      (some sampleAddress) "card" true true "oid" "ORD-1" 7).createdOrder =
      some (mkOrder sampleUser sampleAddress "card"
        [⟨"P1", "Product P1", 50, 2, ""⟩] (0 + 50 * ((2 : ℤ) : ℚ))
        "oid" "ORD-1" 7) := rfl
  have hns : ¬ ((0 + 50 * ((2 : ℤ) : ℚ) : ℚ) > 100) := by norm_num
  refine ⟨?_, ?_, by norm_num, by norm_num⟩
  · rw [ho, Option.map_some', mkOrder_shipping, if_neg hns,
      round2_nine_ninetynine]
  · rw [ho, Option.map_some', mkOrder_total, if_neg hns, round2_eq]
    norm_num

/-- **C4 (amended)** In that scenario the checkout succeeds with stored
subtotal 100, shipping 9.99 (a subtotal of exactly 100 does NOT get free
shipping), tax 8.00 and total 117.99, and P1's persisted stock becomes 3. -/
theorem checkout_example_scenario (user : SessionUser) :
    (checkout user [⟨"P1", 2, 0⟩] [sampleProduct "P1" 50 5] []
      (some sampleAddress) "card" true true "oid" "ORD-1" 7).status = 201 ∧
    (checkout user [⟨"P1", 2, 0⟩] [sampleProduct "P1" 50 5] []
      (some sampleAddress) "card" true true "oid" "ORD-1" 7).createdOrder.map
        Order.subtotal = some 100 ∧
    (checkout user [⟨"P1", 2, 0⟩] [sampleProduct "P1" 50 5] []
      (some sampleAddress) "card" true true "oid" "ORD-1" 7).createdOrder.map
        Order.shipping = some 9.99 ∧
    (checkout user [⟨"P1", 2, 0⟩] [sampleProduct "P1" 50 5] []
      (some sampleAddress) "card" true true "oid" "ORD-1" 7).createdOrder.map
        Order.tax = some 8 ∧
    (checkout user [⟨"P1", 2, 0⟩] [sampleProduct "P1" 50 5] []
      (some sampleAddress) "card" true true "oid" "ORD-1" 7).createdOrder.map
        Order.total = some 117.99 ∧
    (checkout user [⟨"P1", 2, 0⟩] [sampleProduct "P1" 50 5] []
      (some sampleAddress) "card" true true "oid" "ORD-1"
      7).productsFile.map Product.stock = [3] := by
  have ho : (checkout user [⟨"P1", 2, 0⟩] [sampleProduct "P1" 50 5] []
      (some sampleAddress) "card" true true "oid" "ORD-1" 7).createdOrder =
      some (mkOrder user sampleAddress "card"
        [⟨"P1", "Product P1", 50, 2, ""⟩] (0 + 50 * ((2 : ℤ) : ℚ))
        "oid" "ORD-1" 7) := rfl
  have hns : ¬ ((0 + 50 * ((2 : ℤ) : ℚ) : ℚ) > 100) := by norm_num
  refine ⟨rfl, ?_, ?_, ?_, ?_, rfl⟩
  · rw [ho, Option.map_some', mkOrder_subtotal, round2_eq]
    norm_num
  · rw [ho, Option.map_some', mkOrder_shipping, if_neg hns,
      round2_nine_ninetynine]
  · rw [ho, Option.map_some', mkOrder_tax, round2_eq]
    norm_num
  · rw [ho, Option.map_some', mkOrder_total, if_neg hns, round2_eq]
    norm_num

/-! ## Session cart (`GET /api/cart`, `PUT /api/cart/update`) -/

/-- The `product` sub-object of an enriched cart item. -/
structure CartProductInfo where
  id : String
  name : String
  price : ℚ
  originalPrice : ℚ
  image : String
  stock : ℤ
  deriving Repr, DecidableEq

/-- A cart line enriched with product details (`{...item, product: {...}}`). -/
structure EnrichedItem where
  productId : String
  quantity : ℤ
  addedAt : ℕ
  product : CartProductInfo
  deriving Repr, DecidableEq

/-- The `summary` object of the cart response. -/
structure CartSummary where
  itemCount : ℤ
  subtotal : ℚ
  shipping : ℚ
  tax : ℚ
  total : ℚ
  deriving Repr, DecidableEq

/-- Response of `GET /api/cart`, together with the session cart after the
request (the handler never reassigns `req.session.cart`). -/
structure GetCartResponse where
  items : List EnrichedItem
  summary : CartSummary
  cart : List CartItem
  deriving Repr, DecidableEq

/-- One step of the enrichment `cart.map(...)`: `null` (here `none`) when the
line's product id resolves to no product. -/
def enrichCartItem (products : List Product) (item : CartItem) :
    Option EnrichedItem :=
  (products.find? (fun p => p.id == item.productId)).map (fun product =>
    { productId := item.productId, quantity := item.quantity,
      addedAt := item.addedAt,
      product := { id := product.id, name := product.name,
                   price := product.price,
                   originalPrice := product.originalPrice,
                   image := product.images.headD "",
                   stock := product.stock } })

/-- The `GET /api/cart` handler: `cart.map(...).filter(Boolean)` then the
summary over the surviving (enriched) items. -/
def getCart (cart : List CartItem) (products : List Product) :
    GetCartResponse :=
  let cartItems := cart.filterMap (enrichCartItem products)
  let subtotal : ℚ :=
    cartItems.foldl (fun sum item => sum + item.product.price * item.quantity) 0
  let shipping : ℚ := if subtotal > 100 then 0 else 9.99
  let tax : ℚ := subtotal * 0.08
  let total : ℚ := subtotal + shipping + tax
  { items := cartItems,
    summary :=
      { itemCount := cartItems.foldl (fun sum item => sum + item.quantity) 0,
        subtotal := round2 subtotal, shipping := round2 shipping,
        tax := round2 tax, total := round2 total },
    cart := cart }

/-- Outcome of `PUT /api/cart/update`: status, `error` code, and the session
cart afterwards (`none` when the session never had a cart). -/
structure CartUpdateResult where
  status : ℕ
  error : Option String
  sessionCart : Option (List CartItem)
  deriving Repr, DecidableEq

/-- `req.session.cart[itemIndex].quantity = parseInt(quantity)`. -/
def setQuantity : List CartItem → ℕ → ℤ → List CartItem
  | [], _, _ => []
  | item :: rest, 0, q => { item with quantity := q } :: rest
  | item :: rest, n + 1, q => item :: setQuantity rest n q

/-- The `PUT /api/cart/update` handler.  `quantity = none` stands for an
absent (`undefined`) body field; a falsy (empty) `productId` hits the
missing-fields check. -/
def cartUpdate (sessionCart : Option (List CartItem))
    (products : List Product) (productId : String) (quantity : Option ℤ) :
    CartUpdateResult :=
  if productId == "" || quantity.isNone then
    ⟨400, some "Missing fields", sessionCart⟩
  else
    match sessionCart with
    | none => ⟨404, some "Empty cart", none⟩
    | some cart =>
      match cart.findIdx? (fun item => item.productId == productId) with
      | none => ⟨404, some "Not in cart", some cart⟩
      | some itemIndex =>
        let q := quantity.getD 0
        if q ≤ 0 then
          ⟨200, none, some (cart.eraseIdx itemIndex)⟩
        else
          match products.find? (fun p => p.id == productId) with
          | some product =>
            if q > product.stock then
              ⟨400, some "Stock limit", some cart⟩
            else ⟨200, none, some (setQuantity cart itemIndex q)⟩
          | none => ⟨200, none, some (setQuantity cart itemIndex q)⟩

/-- Lines whose image under `f` is `none` contribute nothing to a
`filterMap`. -/
theorem filterMap_filter_isSome {α β : Type} (f : α → Option β)
    (pred : α → Bool) (hpred : ∀ x, pred x = (f x).isSome) (l : List α) :
    (l.filter pred).filterMap f = l.filterMap f := by
  induction l with
  | nil => rfl
  | cons x l ih =>
    rw [List.filter_cons]
    cases hfx : f x with
    | none =>
      have hx : pred x = false := by rw [hpred, hfx]; rfl
      simp [hx, List.filterMap_cons, hfx, ih]
    | some b =>
      have hx : pred x = true := by rw [hpred, hfx]; rfl
      simp [hx, List.filterMap_cons, hfx, ih]

/-- **C10** The get-cart operation is read-only on the session cart and
silently excludes dangling lines: the session cart comes back unchanged
(dangling lines still in it), every returned enriched item resolves to a
product in the catalog, and the returned items and summary are identical to
those computed from the cart with its dangling lines removed (dangling lines
contribute nothing to itemCount/subtotal/shipping/tax/total). -/
theorem getCart_readonly_ignores_dangling (cart : List CartItem)
    (products : List Product) :
    (getCart cart products).cart = cart ∧
    (∀ e ∈ (getCart cart products).items,
      ∃ p ∈ products, p.id = e.productId) ∧
    (getCart (cart.filter
        (fun i => (products.find? (fun p => p.id == i.productId)).isSome))
      products).items = (getCart cart products).items ∧
    (getCart (cart.filter
        (fun i => (products.find? (fun p => p.id == i.productId)).isSome))
      products).summary = (getCart cart products).summary := by
  have hpred : ∀ i : CartItem,
      ((products.find? (fun p => p.id == i.productId)).isSome : Bool) =
        (enrichCartItem products i).isSome := by
    intro i
    rw [enrichCartItem, Option.isSome_map']
  have hfm : (cart.filter
      (fun i => (products.find? (fun p => p.id == i.productId)).isSome)).filterMap
        (enrichCartItem products) = cart.filterMap (enrichCartItem products) :=
    filterMap_filter_isSome _ _ hpred cart
  refine ⟨rfl, ?_, ?_, ?_⟩
  · intro e he
    simp only [getCart] at he
    rw [List.mem_filterMap] at he
    obtain ⟨i, hi, henr⟩ := he
    rw [enrichCartItem] at henr
    cases hf : products.find? (fun p => p.id == i.productId) with
    | none => rw [hf] at henr; simp at henr
    | some p =>
      rw [hf] at henr
      simp only [Option.map_some', Option.some.injEq] at henr
      refine ⟨p, List.mem_of_find?_eq_some hf, ?_⟩
      have hpe := List.find?_some hf
      rw [← henr]
      exact beq_iff_eq.mp hpe
  · simp only [getCart, hfm]
  · simp only [getCart, hfm]

/-- **C8** For a cart-update request naming a product id that has a line in
the session cart (at index `i`) and that resolves in the catalog to product
`p`: a requested quantity ≤ 0 removes the line; a positive quantity
exceeding `p`'s live stock is rejected with 400 leaving the cart unchanged;
otherwise the line's quantity is replaced with the requested value. -/
theorem cartUpdate_line_spec (cart : List CartItem) (products : List Product)
    (productId : String) (q : ℤ) (i : ℕ) (p : Product)
    (hpid : productId ≠ "")
    (hline : cart.findIdx? (fun item => item.productId == productId) = some i)
    (hprod : products.find? (fun pr => pr.id == productId) = some p) :
    (q ≤ 0 →
      cartUpdate (some cart) products productId (some q) =
        ⟨200, none, some (cart.eraseIdx i)⟩) ∧
    (0 < q → p.stock < q →
      cartUpdate (some cart) products productId (some q) =
        ⟨400, some "Stock limit", some cart⟩) ∧
    (0 < q → q ≤ p.stock →
      cartUpdate (some cart) products productId (some q) =
        ⟨200, none, some (setQuantity cart i q)⟩) := by
  have hb : (productId == "" || (some q : Option ℤ).isNone) = false := by
    simp [hpid]
  refine ⟨fun hq => ?_, fun hq hst => ?_, fun hq hst => ?_⟩
  · simp [cartUpdate, hb, hline, hq, hpid]
  · have hnq : ¬ q ≤ 0 := by omega
    simp [cartUpdate, hb, hline, hprod, hnq, hst, hpid]
  · have hnq : ¬ q ≤ 0 := by omega
    have hns : ¬ q > p.stock := by omega
    simp [cartUpdate, hb, hline, hprod, hnq, hns, hpid]

/-- Concrete instance of C8 (quantity 5 exceeds stock 3 → 400, unchanged
cart; and the other two branches at their boundary facts). -/
theorem cartUpdate_line_spec_witness :
    ("P1" : String) ≠ "" ∧
    ([(⟨"P1", 1, 0⟩ : CartItem)].findIdx?
      (fun item => item.productId == "P1") = some 0) ∧
    ([sampleProduct "P1" 50 3].find? (fun pr => pr.id == "P1") =
      some (sampleProduct "P1" 50 3)) ∧
    (((5 : ℤ) ≤ 0 →
      cartUpdate (some [⟨"P1", 1, 0⟩]) [sampleProduct "P1" 50 3] "P1"
        (some 5) = ⟨200, none, some ([(⟨"P1", 1, 0⟩ : CartItem)].eraseIdx 0)⟩) ∧
    ((0 : ℤ) < 5 → (sampleProduct "P1" 50 3).stock < 5 →
      cartUpdate (some [⟨"P1", 1, 0⟩]) [sampleProduct "P1" 50 3] "P1"
        (some 5) = ⟨400, some "Stock limit", some [⟨"P1", 1, 0⟩]⟩) ∧
    ((0 : ℤ) < 5 → (5 : ℤ) ≤ (sampleProduct "P1" 50 3).stock →
      cartUpdate (some [⟨"P1", 1, 0⟩]) [sampleProduct "P1" 50 3] "P1"
        (some 5) = ⟨200, none, some (setQuantity [⟨"P1", 1, 0⟩] 0 5)⟩)) :=
  ⟨by decide, rfl, rfl,
    cartUpdate_line_spec [⟨"P1", 1, 0⟩] [sampleProduct "P1" 50 3] "P1" 5 0
      (sampleProduct "P1" 50 3) (by decide) rfl rfl⟩

/-! ## Product update (`PUT /api/products/:id`, admin only) -/

/-- A request body for the product update: each field may or may not be
supplied.  The body may even supply `id`, `createdAt` or `updatedAt` — the
handler's trailing explicit fields overwrite whatever the spread copied. -/
structure ProductPatch where
  name : Option String
  description : Option String
  price : Option ℚ
  originalPrice : Option ℚ
  category : Option String
  subcategory : Option String
  brand : Option String
  images : Option (List String)
  stock : Option ℤ
  rating : Option ℚ
  reviews : Option ℕ
  featured : Option Bool
  tags : Option (List String)
  specifications : Option (List (String × String))
  id : Option String
  createdAt : Option ℕ
  updatedAt : Option ℕ
  deriving Repr, DecidableEq

/-- `{ ...products[index], ...req.body, id: products[index].id,
createdAt: products[index].createdAt, updatedAt: getTimestamp() }`:
supplied body fields overwrite the stored ones, then `id` and `createdAt`
are forced back to the stored values and `updatedAt` to the current time. -/
def applyPatch (p : Product) (body : ProductPatch) (now : ℕ) : Product :=
  { id := p.id,
    name := body.name.getD p.name,
    description := body.description.getD p.description,
    price := body.price.getD p.price,
    originalPrice := body.originalPrice.getD p.originalPrice,
    category := body.category.getD p.category,
    subcategory := body.subcategory.getD p.subcategory,
    brand := body.brand.getD p.brand,
    images := body.images.getD p.images,
    stock := body.stock.getD p.stock,
    rating := body.rating.getD p.rating,
    reviews := body.reviews.getD p.reviews,
    featured := body.featured.getD p.featured,
    tags := body.tags.getD p.tags,
    specifications := body.specifications.getD p.specifications,
    createdAt := p.createdAt,
    updatedAt := some now }

/-- `findIndex` on the product id followed by in-place replacement: the
first product whose id matches is replaced by its patched version. -/
def updateProductIn (body : ProductPatch) (now : ℕ) :
    List Product → String → Option (List Product × Product)
  | [], _ => none
  | p :: ps, pid =>
    if p.id == pid then
      some (applyPatch p body now :: ps, applyPatch p body now)
    else
      (updateProductIn body now ps pid).map (fun r => (p :: r.1, r.2))

/-- Outcome of `PUT /api/products/:id`. -/
structure UpdateProductResult where
  status : ℕ
  productsFile : List Product
  updatedProduct : Option Product
  deriving Repr, DecidableEq

/-- The `PUT /api/products/:id` handler: 404 when no product has the id,
otherwise patch it, write the collection (result ignored) and return the
updated product. -/
def updateProductHandler (products : List Product) (pid : String)
    (body : ProductPatch) (writeOk : Bool) (now : ℕ) : UpdateProductResult :=
  match updateProductIn body now products pid with
  | none => ⟨404, products, none⟩
  | some (newProducts, updated) =>
    ⟨200, if writeOk then newProducts else products, some updated⟩

theorem updateProductIn_of_find? (body : ProductPatch) (now : ℕ)
    (pid : String) (old : Product) :
    ∀ products : List Product,
      products.find? (fun p => p.id == pid) = some old →
      ∃ newProducts, updateProductIn body now products pid =
        some (newProducts, applyPatch old body now) := by
  intro products
  induction products with
  | nil => intro h; simp [List.find?] at h
  | cons p ps ih =>
    intro h
    by_cases hp : (p.id == pid) = true
    · simp only [List.find?_cons, hp] at h
      obtain rfl : p = old := by injection h
      exact ⟨applyPatch p body now :: ps, by simp [updateProductIn, hp]⟩
    · rw [Bool.not_eq_true] at hp
      simp only [List.find?_cons, hp] at h
      obtain ⟨nps, hnps⟩ := ih h
      refine ⟨p :: nps, ?_⟩
      simp [updateProductIn, hp, hnps]

/-- **C9** The admin product-update operation preserves the stored `id` and
`createdAt` even when the request body supplies different values for them;
every other supplied field overwrites the stored one (unsupplied fields are
kept), and `updatedAt` is set to the current timestamp. -/
theorem updateProduct_preserves_id_createdAt (products : List Product)
    (pid : String) (body : ProductPatch) (writeOk : Bool) (now : ℕ)
    (old updated : Product)
    (hold : products.find? (fun p => p.id == pid) = some old)
    (hres : (updateProductHandler products pid body writeOk now).updatedProduct
      = some updated) :
    updated.id = old.id ∧ updated.createdAt = old.createdAt ∧
    updated.updatedAt = some now ∧
    updated.name = body.name.getD old.name ∧
    updated.description = body.description.getD old.description ∧
    updated.price = body.price.getD old.price ∧
    updated.originalPrice = body.originalPrice.getD old.originalPrice ∧
    updated.category = body.category.getD old.category ∧
    updated.subcategory = body.subcategory.getD old.subcategory ∧
    updated.brand = body.brand.getD old.brand ∧
    updated.images = body.images.getD old.images ∧
    updated.stock = body.stock.getD old.stock ∧
    updated.rating = body.rating.getD old.rating ∧
    updated.reviews = body.reviews.getD old.reviews ∧
    updated.featured = body.featured.getD old.featured ∧
    updated.tags = body.tags.getD old.tags ∧
    updated.specifications = body.specifications.getD old.specifications := by
  obtain ⟨nps, hnps⟩ := updateProductIn_of_find? body now pid old products hold
  rw [updateProductHandler, hnps] at hres
  obtain rfl : applyPatch old body now = updated := by injection hres
  exact ⟨rfl, rfl, rfl, rfl, rfl, rfl, rfl, rfl, rfl, rfl, rfl, rfl, rfl, rfl,
    rfl, rfl, rfl⟩

/-- A sample patch supplying a new name, price and stock, and maliciously
supplying `id`, `createdAt` and `updatedAt` as well. -/
def samplePatch : ProductPatch :=
  ⟨some "Renamed", none, some 60, none, none, none, none, none, some 9,
    none, none, none, none, none, some "EVIL", some 99, some 1234⟩

/-- Concrete instance of C9: the patched product keeps id "P1" and
createdAt 0 despite the body supplying "EVIL" and 99, takes the supplied
name/price/stock, keeps the unsupplied description, and gets updatedAt 7. -/
theorem updateProduct_preserves_id_createdAt_witness :
    ([sampleProduct "P1" 50 5].find? (fun p => p.id == "P1") =
      some (sampleProduct "P1" 50 5)) ∧
    ((updateProductHandler [sampleProduct "P1" 50 5] "P1" samplePatch true
      7).updatedProduct =
      some (applyPatch (sampleProduct "P1" 50 5) samplePatch 7)) ∧
    ((applyPatch (sampleProduct "P1" 50 5) samplePatch 7).id =
        (sampleProduct "P1" 50 5).id ∧
      (applyPatch (sampleProduct "P1" 50 5) samplePatch 7).createdAt =
        (sampleProduct "P1" 50 5).createdAt ∧
      (applyPatch (sampleProduct "P1" 50 5) samplePatch 7).updatedAt = some 7 ∧
      (applyPatch (sampleProduct "P1" 50 5) samplePatch 7).name =
        samplePatch.name.getD (sampleProduct "P1" 50 5).name ∧
      (applyPatch (sampleProduct "P1" 50 5) samplePatch 7).description =
        samplePatch.description.getD (sampleProduct "P1" 50 5).description ∧
      (applyPatch (sampleProduct "P1" 50 5) samplePatch 7).price =
        samplePatch.price.getD (sampleProduct "P1" 50 5).price ∧
      (applyPatch (sampleProduct "P1" 50 5) samplePatch 7).originalPrice =
        samplePatch.originalPrice.getD (sampleProduct "P1" 50 5).originalPrice ∧
      (applyPatch (sampleProduct "P1" 50 5) samplePatch 7).category =
        samplePatch.category.getD (sampleProduct "P1" 50 5).category ∧
      (applyPatch (sampleProduct "P1" 50 5) samplePatch 7).subcategory =
        samplePatch.subcategory.getD (sampleProduct "P1" 50 5).subcategory ∧
      (applyPatch (sampleProduct "P1" 50 5) samplePatch 7).brand =
        samplePatch.brand.getD (sampleProduct "P1" 50 5).brand ∧
      (applyPatch (sampleProduct "P1" 50 5) samplePatch 7).images =
        samplePatch.images.getD (sampleProduct "P1" 50 5).images ∧
      (applyPatch (sampleProduct "P1" 50 5) samplePatch 7).stock =
        samplePatch.stock.getD (sampleProduct "P1" 50 5).stock ∧
      (applyPatch (sampleProduct "P1" 50 5) samplePatch 7).rating =
        samplePatch.rating.getD (sampleProduct "P1" 50 5).rating ∧
      (applyPatch (sampleProduct "P1" 50 5) samplePatch 7).reviews =
        samplePatch.reviews.getD (sampleProduct "P1" 50 5).reviews ∧
      (applyPatch (sampleProduct "P1" 50 5) samplePatch 7).featured =
        samplePatch.featured.getD (sampleProduct "P1" 50 5).featured ∧
      (applyPatch (sampleProduct "P1" 50 5) samplePatch 7).tags =
        samplePatch.tags.getD (sampleProduct "P1" 50 5).tags ∧
      (applyPatch (sampleProduct "P1" 50 5) samplePatch 7).specifications =
        samplePatch.specifications.getD
          (sampleProduct "P1" 50 5).specifications) :=
  ⟨rfl, rfl,
    updateProduct_preserves_id_createdAt [sampleProduct "P1" 50 5] "P1"
      samplePatch true 7 (sampleProduct "P1" 50 5)
      (applyPatch (sampleProduct "P1" 50 5) samplePatch 7) rfl rfl⟩

/-! ## Order listing (`GET /api/orders`) -/

/-- The `GET /api/orders` handler: non-admins see only their own orders;
the result is sorted newest-created-first (`new Date(b.createdAt) -
new Date(a.createdAt)`, modelled as a stable descending sort on the
timestamp); `status` is `none` when the query parameter is absent or falsy
(`if (status)`), otherwise the result is restricted by status equality. -/
def getOrders (orders : List Order) (user : SessionUser)
    (status : Option String) : List Order :=
  let owned := if user.role == "admin" then orders
    else orders.filter (fun o => o.userId == user.id)
  let sorted := owned.mergeSort (fun a b => decide (b.createdAt ≤ a.createdAt))
  match status with
  | none => sorted
  | some s => sorted.filter (fun o => o.status == s)

theorem createdAt_desc_trans (a b c : Order) :
    (decide (b.createdAt ≤ a.createdAt)) = true →
    (decide (c.createdAt ≤ b.createdAt)) = true →
    (decide (c.createdAt ≤ a.createdAt)) = true := by
  simp only [decide_eq_true_eq]
  omega

theorem createdAt_desc_total (a b : Order) :
    ((decide (b.createdAt ≤ a.createdAt)) ||
      (decide (a.createdAt ≤ b.createdAt))) = true := by
  simp only [Bool.or_eq_true, decide_eq_true_eq]
  omega

theorem pairwise_mergeSort_createdAt (l : List Order) :
    (l.mergeSort (fun a b => decide (b.createdAt ≤ a.createdAt))).Pairwise
      (fun a b => b.createdAt ≤ a.createdAt) := by
  have h := List.sorted_mergeSort createdAt_desc_trans createdAt_desc_total l
  exact h.imp (fun hab => by simpa using hab)

/-- **C7** Order listing: a non-admin requester's result never contains an
order owned by someone else; an admin's result contains exactly the orders
passing the (optional) status filter, regardless of owner; the result is
sorted newest-created-first; and when a status parameter is supplied every
returned order has that status. -/
theorem getOrders_visibility_sort_filter (orders : List Order)
    (user : SessionUser) (status : Option String) :
    (user.role ≠ "admin" →
      ∀ o ∈ getOrders orders user status, o.userId = user.id) ∧
    (user.role = "admin" →
      ∀ o : Order, o ∈ getOrders orders user status ↔
        o ∈ orders ∧ (∀ s, status = some s → o.status = s)) ∧
    (getOrders orders user status).Pairwise
      (fun a b => b.createdAt ≤ a.createdAt) ∧
    (∀ s, status = some s →
      ∀ o ∈ getOrders orders user status, o.status = s) := by
  refine ⟨?_, ?_, ?_, ?_⟩
  · intro hrole o ho
    have hadm : (user.role == "admin") = false := by simp [hrole]
    simp only [getOrders, hadm, Bool.false_eq_true, if_false] at ho
    cases status with
    | none =>
      rw [List.mem_mergeSort] at ho
      exact beq_iff_eq.mp (List.mem_filter.mp ho).2
    | some s =>
      have ho' := (List.mem_filter.mp ho).1
      rw [List.mem_mergeSort] at ho'
      exact beq_iff_eq.mp (List.mem_filter.mp ho').2
  · intro hrole o
    have hadm : (user.role == "admin") = true := by simp [hrole]
    simp only [getOrders, hadm, if_true]
    cases status with
    | none =>
      rw [List.mem_mergeSort]
      constructor
      · exact fun h => ⟨h, by intro s hs; cases hs⟩
      · exact fun h => h.1
    | some s =>
      rw [List.mem_filter, List.mem_mergeSort]
      constructor
      · rintro ⟨hmem, hst⟩
        exact ⟨hmem, fun s' hs' => by
          cases hs'
          exact beq_iff_eq.mp hst⟩
      · rintro ⟨hmem, hst⟩
        exact ⟨hmem, beq_iff_eq.mpr (hst s rfl)⟩
  · simp only [getOrders]
    cases status with
    | none => exact pairwise_mergeSort_createdAt _
    | some s =>
      exact (pairwise_mergeSort_createdAt _).sublist (List.filter_sublist _)
  · rintro s rfl o ho
    simp only [getOrders] at ho
    exact beq_iff_eq.mp (List.mem_filter.mp ho).2

/-! ## Catalog query (`GET /api/products`) -/

/-- Query parameters of `GET /api/products`.  A parameter that is absent or
falsy (empty string) skips its filter in the source (`if (search)` etc.), so
both are modelled as `none`.  `limit`/`page` are `parseInt` results; `page`
defaults to 1, the page size to 12. -/
structure ProductQuery where
  search : Option String
  category : Option String
  subcategory : Option String
  brand : Option String
  minPrice : Option ℚ
  maxPrice : Option ℚ
  sort : Option String
  featured : Option String
  limit : Option ℕ
  page : ℕ
  deriving Repr, DecidableEq

/-- The search filter: case-insensitive substring match over name,
description or any tag. -/
def matchesSearch (searchLower : String) (p : Product) : Bool :=
  jsIncludes p.name.toLower searchLower ||
  jsIncludes p.description.toLower searchLower ||
  p.tags.any (fun t => jsIncludes t.toLower searchLower)

/-- The filter chain of the handler (search, category, subcategory, brand,
price range, featured), composed by logical AND. -/
def productFilters (products : List Product) (q : ProductQuery) :
    List Product :=
  let ps := products
  let ps := match q.search with
    | none => ps
    | some search => ps.filter (matchesSearch search.toLower)
  let ps := match q.category with
    | none => ps
    | some c => ps.filter (fun p => p.category.toLower == c.toLower)
  let ps := match q.subcategory with
    | none => ps
    | some c => ps.filter (fun p => p.subcategory.toLower == c.toLower)
  let ps := match q.brand with
    | none => ps
    | some b => ps.filter (fun p => p.brand.toLower == b.toLower)
  let ps := match q.minPrice with
    | none => ps
    | some m => ps.filter (fun p => decide (m ≤ p.price))
  let ps := match q.maxPrice with
    | none => ps
    | some m => ps.filter (fun p => decide (p.price ≤ m))
  if q.featured == some "true" then ps.filter (fun p => p.featured) else ps

/-- The sort switch: a fixed set of named orders (stable, as JS sort is);
`localeCompare` is modelled by the string order; an unrecognized sort key is
a no-op. -/
def productSort (ps : List Product) (q : ProductQuery) : List Product :=
  match q.sort with
  | none => ps
  | some s =>
    if s == "price-asc" then ps.mergeSort (fun a b => decide (a.price ≤ b.price))
    else if s == "price-desc" then
      ps.mergeSort (fun a b => decide (b.price ≤ a.price))
    else if s == "name-asc" then
      ps.mergeSort (fun a b => decide (a.name ≤ b.name))
    else if s == "name-desc" then
      ps.mergeSort (fun a b => decide (b.name ≤ a.name))
    else if s == "rating" then
      ps.mergeSort (fun a b => decide (b.rating ≤ a.rating))
    else if s == "newest" then
      ps.mergeSort (fun a b => decide (b.createdAt ≤ a.createdAt))
    else ps

/-- The `GET /api/products` response: paginated slice plus metadata. -/
structure ProductsResponse where
  products : List Product
  total : ℕ
  page : ℕ
  pageSize : ℕ
  totalPages : ℤ
  deriving Repr, DecidableEq

/-- The `GET /api/products` handler: filter, sort, count, then
`slice(startIndex, startIndex + pageSize)` with
`totalPages = Math.ceil(totalProducts / pageSize)`. -/
def getProducts (products : List Product) (q : ProductQuery) :
    ProductsResponse :=
  let filtered := productFilters products q
  let sorted := productSort filtered q
  let totalProducts := sorted.length
  let pageSize := q.limit.getD 12
  let startIndex := (q.page - 1) * pageSize
  { products := (sorted.drop startIndex).take pageSize,
    total := totalProducts,
    page := q.page,
    pageSize := pageSize,
    totalPages := jsCeil ((totalProducts : ℚ) / (pageSize : ℚ)) }

/-- **C6** For every product collection and filter combination, with a
positive page size and a 1-indexed page number: the reported `totalPages` is
the ceiling of the filtered total over the page size; a page number beyond
`totalPages` yields an empty product list; and the `total`/`totalPages`
metadata do not depend on the requested page at all.  (The handler is a
total function — no error is raised.) -/
theorem getProducts_pagination (products : List Product) (q : ProductQuery)
    (hsize : 0 < q.limit.getD 12) (hpage : 1 ≤ q.page) :
    (getProducts products q).totalPages =
      ⌈((getProducts products q).total : ℚ) /
        ((getProducts products q).pageSize : ℚ)⌉ ∧
    ((getProducts products q).totalPages < (q.page : ℤ) →
      (getProducts products q).products = []) ∧
    (∀ p' : ℕ,
      (getProducts products { q with page := p' }).total =
        (getProducts products q).total ∧
      (getProducts products { q with page := p' }).totalPages =
        (getProducts products q).totalPages) := by
  refine ⟨jsCeil_eq _, ?_, fun p' => ⟨rfl, rfl⟩⟩
  intro hbeyond
  simp only [getProducts, jsCeil_eq] at hbeyond ⊢
  have hS : (0 : ℚ) < (q.limit.getD 12 : ℚ) := by exact_mod_cast hsize
  have h1 : ⌈((productSort (productFilters products q) q).length : ℚ) /
      (q.limit.getD 12 : ℚ)⌉ ≤ (q.page : ℤ) - 1 := by omega
  have h2 : ((productSort (productFilters products q) q).length : ℚ) /
      (q.limit.getD 12 : ℚ) ≤ (((q.page : ℤ) - 1 : ℤ) : ℚ) :=
    Int.ceil_le.mp h1
  rw [div_le_iff₀ hS] at h2
  have h3 : ((productSort (productFilters products q) q).length : ℚ) ≤
      ((q.page - 1 : ℕ) : ℚ) * ((q.limit.getD 12 : ℕ) : ℚ) := by
    have hc : (((q.page : ℤ) - 1 : ℤ) : ℚ) = ((q.page - 1 : ℕ) : ℚ) := by
      have : ((q.page - 1 : ℕ) : ℤ) = (q.page : ℤ) - 1 := by omega
      rw [← this]
      push_cast
      ring
    rw [hc] at h2
    exact h2
  have h4 : (productSort (productFilters products q) q).length ≤
      (q.page - 1) * (q.limit.getD 12) := by exact_mod_cast h3
  rw [List.drop_eq_nil_of_le h4, List.take_nil]

/-- Concrete instance of C6: one product, page size 2, page 3 (beyond the
single page) — empty slice, metadata intact. -/
theorem getProducts_pagination_witness :
    0 < (some 2 : Option ℕ).getD 12 ∧
    (1 : ℕ) ≤ 3 ∧
    ((getProducts [sampleProduct "P1" 50 5]
        ⟨none, none, none, none, none, none, none, none, some 2, 3⟩).totalPages =
      ⌈((getProducts [sampleProduct "P1" 50 5]
          ⟨none, none, none, none, none, none, none, none, some 2,
            3⟩).total : ℚ) /
        ((getProducts [sampleProduct "P1" 50 5]
          ⟨none, none, none, none, none, none, none, none, some 2,
            3⟩).pageSize : ℚ)⌉ ∧
    ((getProducts [sampleProduct "P1" 50 5]
        ⟨none, none, none, none, none, none, none, none, some 2,
          3⟩).totalPages < ((3 : ℕ) : ℤ) →
      (getProducts [sampleProduct "P1" 50 5]
        ⟨none, none, none, none, none, none, none, none, some 2,
          3⟩).products = []) ∧
    (∀ p' : ℕ,
      (getProducts [sampleProduct "P1" 50 5]
        ⟨none, none, none, none, none, none, none, none, some 2, p'⟩).total =
        (getProducts [sampleProduct "P1" 50 5]
          ⟨none, none, none, none, none, none, none, none, some 2, 3⟩).total ∧
      (getProducts [sampleProduct "P1" 50 5]
        ⟨none, none, none, none, none, none, none, none, some 2,
          p'⟩).totalPages =
        (getProducts [sampleProduct "P1" 50 5]
          ⟨none, none, none, none, none, none, none, none, some 2,
            3⟩).totalPages)) :=
  ⟨by decide, by decide,
    getProducts_pagination [sampleProduct "P1" 50 5]
      ⟨none, none, none, none, none, none, none, none, some 2, 3⟩
      (by decide) (by decide)⟩

example : round2 (67/1000) = 7/100 := by rw [round2, jsRound_eq]; norm_num
example : round2 (999/100) = 999/100 := by rw [round2, jsRound_eq]; norm_num
example : round2 (67/12500) = 1/100 := by rw [round2, jsRound_eq]; norm_num
example : round2 (67/1000 + 999/100 + 67/12500) = 1006/100 := by
  rw [round2, jsRound_eq]; norm_num
example : ⌊(72/10 : ℚ)⌋ = 7 := by norm_num
example : jsIncludes "hello world" "lo w" = true := by decide
example : jsCeil (7/2) = 4 := by rw [jsCeil, ratFloor_eq_intFloor]; norm_num
